import Mathlib

/-!
Verification of the per-turn conversation pipeline of the Sol voice
assistant (src/app.py). The handlers are embedded as pure Lean functions:
each external call (recording download + transcription, reply generation,
speech synthesis, SMTP delivery) is driven by an explicit outcome oracle,
and the emitted TwiML response is modelled as a list of verbs. Strings are
modelled over their character lists; only ASCII text is exercised, where
the Python string operations (lower, strip, int, in) agree with the Lean
models below.
-/

namespace SolVoice

/-! ## Python string primitives -/

/-- Python whitespace characters stripped by str.strip and int parsing
(ASCII subset). -/
def pyIsSpace (c : Char) : Bool :=
  c == ' ' || c == '\t' || c == '\n' || c == '\r' || c == '\x0b' || c == '\x0c'

/-- Python str.strip on the character list. -/
def pyStripChars (l : List Char) : List Char :=
  ((l.dropWhile pyIsSpace).reverse.dropWhile pyIsSpace).reverse

/-- Python str.strip. -/
def pyStrip (s : String) : String :=
  (pyStripChars s.data).asString

/-- Python str.lower (ASCII model, agreeing with Char.toLower on the
texts that occur in the program). -/
def pyLower (s : String) : String :=
  (s.data.map Char.toLower).asString

/-- Does the pattern match at the front of the list? -/
def matchesAt : List Char → List Char → Bool
  | [], _ => true
  | _ :: _, [] => false
  | a :: as, b :: bs => a == b && matchesAt as bs

/-- Does the pattern occur anywhere in the list? Model of the Python
substring test pat in s. -/
def occursIn (pat : List Char) : List Char → Bool
  | [] => matchesAt pat []
  | b :: bs => matchesAt pat (b :: bs) || occursIn pat bs

/-- Python substring test: pat in s. -/
def pyContains (s pat : String) : Bool :=
  occursIn pat.data s.data

/-- Numeric value of an ASCII digit. -/
def digitVal (c : Char) : Nat :=
  c.toNat - 48

/-- Digit run of a Python int literal: digits with single underscores
allowed strictly between digits. The flag records whether the previous
character was a digit. -/
def pyDigits : List Char → Nat → Bool → Option Nat
  | [], acc, lastDigit => if lastDigit then some acc else none
  | c :: cs, acc, lastDigit =>
    if c.isDigit then pyDigits cs (10 * acc + digitVal c) true
    else if c == '_' && lastDigit then pyDigits cs acc false
    else none

/-- Python int(str): strip whitespace, optional sign, digit run; None on
any malformed input (model of the ValueError). -/
def pyInt? (s : String) : Option Int :=
  match pyStripChars s.data with
  | [] => none
  | '+' :: rest => (pyDigits rest 0 false).map Int.ofNat
  | '-' :: rest => (pyDigits rest 0 false).map (fun n => -(Int.ofNat n))
  | l => (pyDigits l 0 false).map Int.ofNat

/-! ## Fixed strings of the program (src/app.py) -/

/-- The emergency pattern tested against the lowered reply text
(src/app.py lines 288 and 314). -/
def emergencyPhrase : String := "hang up and call 000"

/-- Fallback when the OpenAI client is missing in handle_speech_input
(line 210). -/
def noClientFallbackHandle : String :=
  "Our system is having trouble. Please try again later."

/-- Fallback when the OpenAI client is missing in initial_voice_handler
(line 173). -/
def noClientFallbackInitial : String :=
  "Our system is experiencing issues. Please try again later."

/-- Fallback after an HTTP error downloading the recording (line 235). -/
def httpFetchFallback : String :=
  "I had trouble retrieving what you said. Could you please repeat that?"

/-- Fallback after a network error downloading the recording (line 239). -/
def netFetchFallback : String :=
  "I couldn\x27t get what you said due to a network hiccup. Please say it again."

/-- Fallback after a transcription or other error (line 243). -/
def whisperFallback : String :=
  "I had a bit of trouble understanding that. Could you say it again?"

/-- Default reply kept when the GPT call fails (line 266). -/
def defaultGptReply : String :=
  "I\x27m sorry, I\x27m having a little trouble formulating a response right now. Please try again shortly."

/-- User-message sentinel substituted for an empty transcript (line 263). -/
def noInputSentinel : String := "Is anyone there?"

/-- Fixed greeting of initial_voice_handler (line 175). -/
def greetingText : String :=
  "Hello! You\x27ve reached Northern Skin Doctors. This is Sol, your virtual assistant. How can I assist you today?"

/-- Directory segment of published audio URLs (line 73). -/
def tempAudioDirName : String := "temp_audio_files"

/-- Emergency classification: the lowered text contains the emergency
phrase (lines 288 and 314). -/
def isEmergencyText (t : String) : Bool :=
  pyContains (pyLower t) emergencyPhrase

/-! ## Data model -/

/-- Process configuration relevant to the turn pipeline. -/
structure Config where
  clientInitialized : Bool
  elevenKeysPresent : Bool
  audioHostUrl : String
  smtpConfigured : Bool
deriving DecidableEq

/-- Inbound turn event: the webhook form fields read by
handle_speech_input (lines 194 to 196). A missing field is none. -/
structure TurnRequest where
  callSid : Option String
  recordingUrl : Option String
  recordingDuration : Option String
deriving DecidableEq

/-- Outcome of the recording download plus transcription block
(lines 213 to 243): HTTP error from the download, network error from the
download, any other exception (transcription included), or a transcript. -/
inductive FetchOutcome
  | httpError (status : Nat)
  | netError
  | otherError
  | success (transcript : String)
deriving DecidableEq

/-- Outcome of the GPT chat completion call (lines 267 to 277). -/
inductive GptOutcome
  | success (text : String)
  | failure
deriving DecidableEq

/-- Outcome of the ElevenLabs request inside text_to_elevenlabs_audio:
HTTP error, network error, any other exception, or an HTTP success whose
body wrote the given number of bytes. -/
inductive TtsOutcome
  | httpError
  | netError
  | otherError
  | ok (bytes : Nat)
deriving DecidableEq

/-- Outcome of the SMTP delivery inside notify_error. -/
inductive SmtpOutcome
  | ok
  | transportError
deriving DecidableEq

/-- Oracles for the external calls of one turn. The download oracle is
indexed by attempt number so that attempt counts can be stated. -/
structure Oracles where
  fetch : Nat → FetchOutcome
  gpt : GptOutcome
  tts : TtsOutcome
  ttsFilename : String
  smtp : SmtpOutcome

/-- Result of notify_error (lines 324 to 338): the function returns in
every case; delivery failures are logged, never raised. -/
inductive NotifyResult
  | skippedNoConfig
  | sent
  | failedLogged
deriving DecidableEq

/-- notify_error: skip when SMTP settings are missing, otherwise attempt
delivery and swallow any transport error (lines 324 to 338). -/
def notify_error (cfg : Config) (o : SmtpOutcome) : NotifyResult :=
  if cfg.smtpConfigured then
    match o with
    | SmtpOutcome.ok => NotifyResult.sent
    | SmtpOutcome.transportError => NotifyResult.failedLogged
  else NotifyResult.skippedNoConfig

/-- TwiML verbs emitted by the handlers: Play with a URL, Say with text,
or a Record element that gathers the next turn. -/
inductive Verb
  | play (url : String)
  | say (text : String)
  | record
deriving DecidableEq

/-- Instrumented result of one handler invocation: the TwiML verb list,
the reply text of the turn (the text said or sent for synthesis), the
user message passed to the reply generator (none when generation was
skipped), the number of recording download attempts made, and the results
of the notify_error invocations in order. -/
structure TurnResult where
  twiml : List Verb
  deliveredText : String
  gptUserContent : Option String
  fetchAttempts : Nat
  notifications : List NotifyResult
deriving DecidableEq

/-! ## Operations -/

/-- Public URL of a published audio file (line 111). -/
def publicAudioUrl (cfg : Config) (filename : String) : String :=
  cfg.audioHostUrl ++ "/" ++ tempAudioDirName ++ "/" ++ filename

/-- text_to_elevenlabs_audio (lines 104 to 162): returns the pair of the
optional public audio URL and the text to speak. Missing keys, an HTTP
error, a network error, any other exception, and an HTTP success with a
zero-byte body all yield none; only an HTTP success with a non-zero body
yields the URL. The text component is always the argument unchanged. -/
def text_to_elevenlabs_audio (cfg : Config) (o : TtsOutcome) (filename : String)
    (text_to_speak : String) : Option String × String :=
  if cfg.elevenKeysPresent then
    match o with
    | TtsOutcome.ok n =>
      if n = 0 then (none, text_to_speak)
      else (some (publicAudioUrl cfg filename), text_to_speak)
    | _ => (none, text_to_speak)
  else (none, text_to_speak)

/-- Does text_to_elevenlabs_audio call notify_error for this outcome?
Only the three exception arms do (lines 151 to 162); the zero-byte case
and the success case do not. -/
def ttsNotifies : TtsOutcome → Bool
  | TtsOutcome.httpError => true
  | TtsOutcome.netError => true
  | TtsOutcome.otherError => true
  | TtsOutcome.ok _ => false

/-- The reply text after the GPT stage: the stripped completion on
success, the fixed default on failure (lines 266 to 277). -/
def gptReplyText (o : GptOutcome) : String :=
  match o with
  | GptOutcome.success s => pyStrip s
  | GptOutcome.failure => defaultGptReply

/-- say_fallback (lines 301 to 308): a single Say verb, no Record. -/
def say_fallback (text_to_say : String) : List Verb :=
  [Verb.say text_to_say]

/-- say_fallback_with_gather (lines 310 to 322): Say, then a Record
element unless the text matches the emergency pattern. -/
def say_fallback_with_gather (text_to_say : String) : List Verb :=
  Verb.say text_to_say ::
    (if isEmergencyText text_to_say then [] else [Verb.record])

/-- Recording duration as parsed by handle_speech_input (lines 196 to
202): missing field defaults to "0"; an unparseable value falls back
to 0. -/
def recordingDurationOf (req : TurnRequest) : Int :=
  match pyInt? (req.recordingDuration.getD "0") with
  | some n => n
  | none => 0

/-- The tail of handle_speech_input from the GPT call on (lines 251 to
296): build the user message (empty transcript becomes the sentinel),
obtain the reply text, attempt synthesis, emit Play or Say, and append a
Record element unless the reply matches the emergency pattern. -/
def normalPath (cfg : Config) (o : Oracles) (speech_result : String)
    (attempts : Nat) : TurnResult :=
  let userContent := if speech_result = "" then noInputSentinel else speech_result
  let gpt_reply_text := gptReplyText o.gpt
  let gptNotes :=
    match o.gpt with
    | GptOutcome.failure => [notify_error cfg o.smtp]
    | GptOutcome.success _ => []
  let ttsPair := text_to_elevenlabs_audio cfg o.tts o.ttsFilename gpt_reply_text
  let ttsNotes :=
    if cfg.elevenKeysPresent && ttsNotifies o.tts then [notify_error cfg o.smtp]
    else []
  let body : List Verb :=
    match ttsPair.1 with
    | some url => [Verb.play url]
    | none => [Verb.say ttsPair.2]
  { twiml := body ++ (if isEmergencyText gpt_reply_text then [] else [Verb.record])
  , deliveredText := gpt_reply_text
  , gptUserContent := some userContent
  , fetchAttempts := attempts
  , notifications := gptNotes ++ ttsNotes }

/-- handle_speech_input (lines 192 to 296). Without an OpenAI client the
turn exits with say_fallback. With a recording URL, one download attempt
is made: each failure class exits through say_fallback_with_gather after
one notify_error call; a transcript is stripped and flows into the normal
path. Without a recording URL the transcript is empty regardless of the
reported duration (lines 244 to 249 differ only in logging). -/
def handle_speech_input (cfg : Config) (req : TurnRequest) (o : Oracles) : TurnResult :=
  if cfg.clientInitialized then
    match req.recordingUrl with
    | some _ =>
      match o.fetch 0 with
      | FetchOutcome.httpError _ =>
        { twiml := say_fallback_with_gather httpFetchFallback
        , deliveredText := httpFetchFallback
        , gptUserContent := none
        , fetchAttempts := 1
        , notifications := [notify_error cfg o.smtp] }
      | FetchOutcome.netError =>
        { twiml := say_fallback_with_gather netFetchFallback
        , deliveredText := netFetchFallback
        , gptUserContent := none
        , fetchAttempts := 1
        , notifications := [notify_error cfg o.smtp] }
      | FetchOutcome.otherError =>
        { twiml := say_fallback_with_gather whisperFallback
        , deliveredText := whisperFallback
        , gptUserContent := none
        , fetchAttempts := 1
        , notifications := [notify_error cfg o.smtp] }
      | FetchOutcome.success t => normalPath cfg o (pyStrip t) 1
    | none => normalPath cfg o "" 0
  else
    { twiml := say_fallback noClientFallbackHandle
    , deliveredText := noClientFallbackHandle
    , gptUserContent := none
    , fetchAttempts := 0
    , notifications := [notify_error cfg o.smtp] }

/-- initial_voice_handler (lines 164 to 190). Without an OpenAI client
the call exits with say_fallback; otherwise the fixed greeting is
synthesized (Play on success, Say on failure) and a Record element is
always appended. -/
def initial_voice_handler (cfg : Config) (o : Oracles) : TurnResult :=
  if cfg.clientInitialized then
    let ttsPair := text_to_elevenlabs_audio cfg o.tts o.ttsFilename greetingText
    let ttsNotes :=
      if cfg.elevenKeysPresent && ttsNotifies o.tts then [notify_error cfg o.smtp]
      else []
    let body : List Verb :=
      match ttsPair.1 with
      | some url => [Verb.play url]
      | none => [Verb.say greetingText]
    { twiml := body ++ [Verb.record]
    , deliveredText := greetingText
    , gptUserContent := none
    , fetchAttempts := 0
    , notifications := ttsNotes }
  else
    { twiml := say_fallback noClientFallbackInitial
    , deliveredText := noClientFallbackInitial
    , gptUserContent := none
    , fetchAttempts := 0
    , notifications := [notify_error cfg o.smtp] }

/-! ## Derived observations -/

/-- Is the verb a delivery verb (Play or Say)? -/
def isDelivery : Verb → Bool
  | Verb.record => false
  | _ => true

/-- The delivery verbs of a response, in order. -/
def deliveryVerbs (l : List Verb) : List Verb :=
  l.filter isDelivery

/-- The payload of a verb: the URL of a Play, the text of a Say. -/
def deliveryPayload : Verb → Option String
  | Verb.play u => some u
  | Verb.say t => some t
  | Verb.record => none

/-- The delivery payloads of a response, in order. -/
def deliveryPayloads (l : List Verb) : List String :=
  l.filterMap deliveryPayload

/-- Did the download itself fail (HTTP or network error)? -/
def isDownloadFailure : FetchOutcome → Bool
  | FetchOutcome.httpError _ => true
  | FetchOutcome.netError => true
  | _ => false

/-- Fixed fallback text spoken for each failure class of the download and
transcription block. -/
def fetchFallbackText : FetchOutcome → String
  | FetchOutcome.httpError _ => httpFetchFallback
  | FetchOutcome.netError => netFetchFallback
  | FetchOutcome.otherError => whisperFallback
  | FetchOutcome.success _ => ""

/-- Did the download and transcription block produce a transcript? -/
def fetchSucceeded : FetchOutcome → Bool
  | FetchOutcome.success _ => true
  | _ => false

/-- Does the turn reach the GPT stage (no recording URL, or a transcript
was produced)? -/
def reachesNormalPath (req : TurnRequest) (o : Oracles) : Bool :=
  match req.recordingUrl with
  | some _ => fetchSucceeded (o.fetch 0)
  | none => true

/-- Primary synthesis failures named by the specification: HTTP error,
network error or timeout, or an HTTP success with a zero-byte body. -/
def isPrimaryTtsFailure : TtsOutcome → Bool
  | TtsOutcome.httpError => true
  | TtsOutcome.netError => true
  | TtsOutcome.otherError => false
  | TtsOutcome.ok n => n == 0

/-! ## Spec model of the retry policy -/

/-- Modelled from the spec: which outcomes stop the retry loop of the
AudioFetcher policy in section 4.1 (stop on success or on an
authentication failure, HTTP 401; retry on not-yet-available and network
failures). A transcription failure happens after a successful download,
so it also stops the fetch loop. This policy is absent from src/app.py;
it is stated here only to compare against the code. -/
def specStopsRetry : FetchOutcome → Bool
  | FetchOutcome.httpError status => status == 401
  | FetchOutcome.netError => false
  | FetchOutcome.otherError => true
  | FetchOutcome.success _ => true

/-- Modelled from the spec: attempt counter of the retry loop with the
given fuel, threaded with the number of attempts already made. -/
def specFetchGo (oracle : Nat → FetchOutcome) : Nat → Nat → Nat
  | 0, made => made
  | fuel + 1, made =>
    if specStopsRetry (oracle made) || fuel == 0 then made + 1
    else specFetchGo oracle fuel (made + 1)

/-- Modelled from the spec: total attempts the section 4.1 policy makes
with the default bound of 3. -/
def specFetchAttempts (oracle : Nat → FetchOutcome) : Nat :=
  specFetchGo oracle 3 0

/-! ## Helper lemmas -/

theorem append_ne_empty_of_right (a b : String) (hb : b ≠ "") : a ++ b ≠ "" := by
  intro h
  have h3 : a.data ++ b.data = ([] : List Char) := congrArg String.data h
  have h4 := List.append_eq_nil.mp h3
  apply hb
  cases b with
  | mk l => cases h4.2; rfl

theorem publicAudioUrl_ne_empty (cfg : Config) (fn : String) :
    publicAudioUrl cfg fn ≠ "" := by
  intro h
  have h3 : (cfg.audioHostUrl ++ "/" ++ tempAudioDirName ++ "/").data ++ fn.data
      = ([] : List Char) := congrArg String.data h
  have h4 := List.append_eq_nil.mp h3
  have h5 : (cfg.audioHostUrl ++ "/" ++ tempAudioDirName).data ++ "/".data
      = ([] : List Char) := h4.1
  have h6 := List.append_eq_nil.mp h5
  exact List.cons_ne_nil _ _ h6.2

theorem tts_text_unchanged (cfg : Config) (o : TtsOutcome) (fn t : String) :
    (text_to_elevenlabs_audio cfg o fn t).2 = t := by
  unfold text_to_elevenlabs_audio
  by_cases hk : cfg.elevenKeysPresent <;> cases o <;> simp [hk]
  split <;> rfl

theorem tts_url_shape (cfg : Config) (o : TtsOutcome) (fn t url : String)
    (hm : (text_to_elevenlabs_audio cfg o fn t).1 = some url) :
    url = publicAudioUrl cfg fn := by
  by_cases hk : cfg.elevenKeysPresent <;> cases o <;>
    simp [text_to_elevenlabs_audio, hk] at hm
  rename_i n
  by_cases hn : n = 0 <;> simp [hn] at hm
  exact hm.symm

theorem normalPath_deliveredText (cfg : Config) (o : Oracles) (s : String) (a : Nat) :
    (normalPath cfg o s a).deliveredText = gptReplyText o.gpt := rfl

theorem normalPath_gptUserContent (cfg : Config) (o : Oracles) (s : String) (a : Nat) :
    (normalPath cfg o s a).gptUserContent
      = some (if s = "" then noInputSentinel else s) := rfl

theorem normalPath_fetchAttempts (cfg : Config) (o : Oracles) (s : String) (a : Nat) :
    (normalPath cfg o s a).fetchAttempts = a := rfl

theorem normalPath_emergency (cfg : Config) (o : Oracles) (s : String) (a : Nat)
    (h : isEmergencyText (gptReplyText o.gpt) = true) :
    Verb.record ∉ (normalPath cfg o s a).twiml := by
  cases hm : (text_to_elevenlabs_audio cfg o.tts o.ttsFilename (gptReplyText o.gpt)).1 <;>
    simp [normalPath, hm, h]

theorem normalPath_record_mem (cfg : Config) (o : Oracles) (s : String) (a : Nat)
    (h : isEmergencyText (gptReplyText o.gpt) = false) :
    Verb.record ∈ (normalPath cfg o s a).twiml := by
  cases hm : (text_to_elevenlabs_audio cfg o.tts o.ttsFilename (gptReplyText o.gpt)).1 <;>
    simp [normalPath, hm, h]

theorem normalPath_delivery_say (cfg : Config) (o : Oracles) (s : String) (a : Nat)
    (h1 : (text_to_elevenlabs_audio cfg o.tts o.ttsFilename (gptReplyText o.gpt)).1 = none) :
    deliveryVerbs (normalPath cfg o s a).twiml = [Verb.say (gptReplyText o.gpt)] := by
  have h2 := tts_text_unchanged cfg o.tts o.ttsFilename (gptReplyText o.gpt)
  by_cases he : isEmergencyText (gptReplyText o.gpt) = true <;>
    simp [normalPath, h1, h2, he, deliveryVerbs, isDelivery]

theorem gather_record_mem (t : String) (h : isEmergencyText t = false) :
    Verb.record ∈ say_fallback_with_gather t := by
  simp [say_fallback_with_gather, h]

theorem gather_payloads (t : String) :
    deliveryPayloads (say_fallback_with_gather t) = [t] := by
  by_cases he : isEmergencyText t = true <;>
    simp [say_fallback_with_gather, he, deliveryPayloads, deliveryPayload]

theorem handle_normal (cfg : Config) (req : TurnRequest) (o : Oracles)
    (hc : cfg.clientInitialized = true) (hn : reachesNormalPath req o = true) :
    ∃ s a, handle_speech_input cfg req o = normalPath cfg o s a := by
  cases hu : req.recordingUrl with
  | none =>
    exact ⟨"", 0, by simp [handle_speech_input, hc, hu]⟩
  | some u =>
    cases hf : o.fetch 0 with
    | success t =>
      exact ⟨pyStrip t, 1, by simp [handle_speech_input, hc, hu, hf]⟩
    | httpError st => simp [reachesNormalPath, hu, hf, fetchSucceeded] at hn
    | netError => simp [reachesNormalPath, hu, hf, fetchSucceeded] at hn
    | otherError => simp [reachesNormalPath, hu, hf, fetchSucceeded] at hn

/-! ## Claim theorems -/

/-- C1: on every response path of handle_speech_input, if the reply text
of the turn matches the emergency pattern then no Record element is
appended (the continuation is terminate), regardless of the synthesis
outcome. -/
theorem emergency_reply_terminates (cfg : Config) (req : TurnRequest) (o : Oracles)
    (h : isEmergencyText (handle_speech_input cfg req o).deliveredText = true) :
    Verb.record ∉ (handle_speech_input cfg req o).twiml := by
  cases hc : cfg.clientInitialized with
  | false => simp [handle_speech_input, hc, say_fallback]
  | true =>
    cases hu : req.recordingUrl with
    | none =>
      simp only [handle_speech_input, hc, if_true, hu] at h ⊢
      exact normalPath_emergency cfg o "" 0 (normalPath_deliveredText cfg o "" 0 ▸ h)
    | some u =>
      cases hf : o.fetch 0 with
      | httpError st =>
        simp only [handle_speech_input, hc, if_true, hu, hf] at h
        exact absurd h (by decide)
      | netError =>
        simp only [handle_speech_input, hc, if_true, hu, hf] at h
        exact absurd h (by decide)
      | otherError =>
        simp only [handle_speech_input, hc, if_true, hu, hf] at h
        exact absurd h (by decide)
      | success t =>
        simp only [handle_speech_input, hc, if_true, hu, hf] at h ⊢
        exact normalPath_emergency cfg o (pyStrip t) 1
          (normalPath_deliveredText cfg o (pyStrip t) 1 ▸ h)

/-- Witness for C1: a turn whose generated reply contains the emergency
phrase and whose synthesis succeeds (Scenario D) appends no Record
element. -/
theorem emergency_reply_terminates_witness :
    isEmergencyText (handle_speech_input (Config.mk true true "http://host" true)
      (TurnRequest.mk (some "CA1") none none)
      (Oracles.mk (fun _ => FetchOutcome.netError)
        (GptOutcome.success "If this is an emergency please hang up and call 000 immediately.")
        (TtsOutcome.ok 1024) "f.mp3" SmtpOutcome.ok)).deliveredText = true ∧
    Verb.record ∉ (handle_speech_input (Config.mk true true "http://host" true)
      (TurnRequest.mk (some "CA1") none none)
      (Oracles.mk (fun _ => FetchOutcome.netError)
        (GptOutcome.success "If this is an emergency please hang up and call 000 immediately.")
        (TtsOutcome.ok 1024) "f.mp3" SmtpOutcome.ok)).twiml :=
  ⟨by decide, emergency_reply_terminates _ _ _ (by decide)⟩

/-- C2: an HTTP success from the primary synthesis provider with a
zero-byte body yields no publish URL, and the turn delivers the reply as
a single Say verb instead of Play. -/
theorem zero_byte_synthesis_is_failure (cfg : Config) (req : TurnRequest) (o : Oracles)
    (hc : cfg.clientInitialized = true) (hn : reachesNormalPath req o = true)
    (hk : cfg.elevenKeysPresent = true) (hz : o.tts = TtsOutcome.ok 0) :
    (text_to_elevenlabs_audio cfg o.tts o.ttsFilename (gptReplyText o.gpt)).1 = none ∧
    deliveryVerbs (handle_speech_input cfg req o).twiml
      = [Verb.say (gptReplyText o.gpt)] := by
  have h1 : (text_to_elevenlabs_audio cfg o.tts o.ttsFilename (gptReplyText o.gpt)).1
      = none := by
    simp [text_to_elevenlabs_audio, hz, hk]
  refine ⟨h1, ?_⟩
  obtain ⟨s, a, hh⟩ := handle_normal cfg req o hc hn
  rw [hh]
  exact normalPath_delivery_say cfg o s a h1

/-- Witness for C2: a concrete turn with a zero-byte 200 response from
the synthesis provider falls back to a Say verb with the reply text. -/
theorem zero_byte_synthesis_is_failure_witness :
    ((Config.mk true true "http://host" true).clientInitialized = true ∧
      reachesNormalPath (TurnRequest.mk (some "CA2") none none)
        (Oracles.mk (fun _ => FetchOutcome.netError)
          (GptOutcome.success "Thanks for calling.") (TtsOutcome.ok 0) "f.mp3"
          SmtpOutcome.ok) = true ∧
      (Config.mk true true "http://host" true).elevenKeysPresent = true ∧
      (Oracles.mk (fun _ => FetchOutcome.netError)
        (GptOutcome.success "Thanks for calling.") (TtsOutcome.ok 0) "f.mp3"
        SmtpOutcome.ok).tts = TtsOutcome.ok 0) ∧
    ((text_to_elevenlabs_audio (Config.mk true true "http://host" true)
        (Oracles.mk (fun _ => FetchOutcome.netError)
          (GptOutcome.success "Thanks for calling.") (TtsOutcome.ok 0) "f.mp3"
          SmtpOutcome.ok).tts
        (Oracles.mk (fun _ => FetchOutcome.netError)
          (GptOutcome.success "Thanks for calling.") (TtsOutcome.ok 0) "f.mp3"
          SmtpOutcome.ok).ttsFilename
        (gptReplyText (Oracles.mk (fun _ => FetchOutcome.netError)
          (GptOutcome.success "Thanks for calling.") (TtsOutcome.ok 0) "f.mp3"
          SmtpOutcome.ok).gpt)).1 = none ∧
      deliveryVerbs (handle_speech_input (Config.mk true true "http://host" true)
        (TurnRequest.mk (some "CA2") none none)
        (Oracles.mk (fun _ => FetchOutcome.netError)
          (GptOutcome.success "Thanks for calling.") (TtsOutcome.ok 0) "f.mp3"
          SmtpOutcome.ok)).twiml
        = [Verb.say (gptReplyText (Oracles.mk (fun _ => FetchOutcome.netError)
            (GptOutcome.success "Thanks for calling.") (TtsOutcome.ok 0) "f.mp3"
            SmtpOutcome.ok).gpt)]) :=
  ⟨⟨by decide, by decide, by decide, by decide⟩,
    zero_byte_synthesis_is_failure _ _ _ (by decide) (by decide) (by decide) (by decide)⟩

/-- C3 counterexample: the specification retry policy (section 4.1,
Scenario C) makes 3 attempts when the recording is persistently
not-yet-available (HTTP 404), but handle_speech_input makes exactly 1
download attempt there: the code has no retry loop and no backoff, so
the claimed retry behaviour is refuted at this input. -/
theorem retry_policy_counterexample :
    specFetchAttempts (fun _ => FetchOutcome.httpError 404) = 3 ∧
    (handle_speech_input (Config.mk true true "http://host" true)
      (TurnRequest.mk (some "CA3") (some "http://rec") (some "3"))
      (Oracles.mk (fun _ => FetchOutcome.httpError 404) GptOutcome.failure
        TtsOutcome.otherError "f.mp3" SmtpOutcome.ok)).fetchAttempts = 1 ∧
    (handle_speech_input (Config.mk true true "http://host" true)
      (TurnRequest.mk (some "CA3") (some "http://rec") (some "3"))
      (Oracles.mk (fun _ => FetchOutcome.httpError 404) GptOutcome.failure
        TtsOutcome.otherError "f.mp3" SmtpOutcome.ok)).fetchAttempts
      ≠ specFetchAttempts (fun _ => FetchOutcome.httpError 404) := by
  refine ⟨by decide, by decide, by decide⟩

/-- C3 amended: whenever a recording URL is present and the client is
initialized, handle_speech_input makes exactly one download attempt,
regardless of the outcome class. -/
theorem single_fetch_attempt (cfg : Config) (req : TurnRequest) (o : Oracles)
    (u : String) (hc : cfg.clientInitialized = true)
    (hu : req.recordingUrl = some u) :
    (handle_speech_input cfg req o).fetchAttempts = 1 := by
  cases hf : o.fetch 0 <;> simp [handle_speech_input, hc, hu, hf, normalPath]

/-- Witness for the amended C3: one download attempt on a concrete
authentication failure (HTTP 401). -/
theorem single_fetch_attempt_witness :
    ((Config.mk true true "http://host" true).clientInitialized = true ∧
      (TurnRequest.mk (some "CA4") (some "http://rec") (some "2")).recordingUrl
        = some "http://rec") ∧
    (handle_speech_input (Config.mk true true "http://host" true)
      (TurnRequest.mk (some "CA4") (some "http://rec") (some "2"))
      (Oracles.mk (fun _ => FetchOutcome.httpError 401) GptOutcome.failure
        TtsOutcome.otherError "f.mp3" SmtpOutcome.ok)).fetchAttempts = 1 :=
  ⟨⟨by decide, by decide⟩,
    single_fetch_attempt _ _ _ "http://rec" (by decide) (by decide)⟩

/-- C4 counterexample: when the reply generator returns an empty string
and synthesis yields no audio, the turn emits a Say verb whose payload is
the empty string, refuting the claim that no pipeline exit path
constructs an instruction from an empty-string reply. -/
theorem empty_payload_counterexample :
    deliveryPayloads (handle_speech_input (Config.mk true true "http://host" true)
      (TurnRequest.mk (some "CA5") none none)
      (Oracles.mk (fun _ => FetchOutcome.netError) (GptOutcome.success "")
        TtsOutcome.netError "f.mp3" SmtpOutcome.ok)).twiml = [""] := by
  decide

/-- C4 amended: every turn emits exactly one delivery payload, and it is
non-empty provided the reply text after the GPT stage is non-empty (the
fixed fallback texts and the publish URL are always non-empty; only a
generator reply that strips to the empty string can produce an empty
payload). -/
theorem single_nonempty_payload (cfg : Config) (req : TurnRequest) (o : Oracles)
    (h : gptReplyText o.gpt ≠ "") :
    ∃ p, deliveryPayloads (handle_speech_input cfg req o).twiml = [p] ∧ p ≠ "" := by
  have hnormal : ∀ s a, ∃ p,
      deliveryPayloads (normalPath cfg o s a).twiml = [p] ∧ p ≠ "" := by
    intro s a
    have h2 := tts_text_unchanged cfg o.tts o.ttsFilename (gptReplyText o.gpt)
    cases hm : (text_to_elevenlabs_audio cfg o.tts o.ttsFilename (gptReplyText o.gpt)).1 with
    | some url =>
      refine ⟨url, ?_, ?_⟩
      · by_cases he : isEmergencyText (gptReplyText o.gpt) = true <;>
          simp [normalPath, hm, he, deliveryPayloads, deliveryPayload]
      · rw [tts_url_shape cfg o.tts o.ttsFilename (gptReplyText o.gpt) url hm]
        exact publicAudioUrl_ne_empty cfg o.ttsFilename
    | none =>
      refine ⟨gptReplyText o.gpt, ?_, h⟩
      by_cases he : isEmergencyText (gptReplyText o.gpt) = true <;>
        simp [normalPath, hm, h2, he, deliveryPayloads, deliveryPayload]
  cases hc : cfg.clientInitialized with
  | false =>
    refine ⟨noClientFallbackHandle, ?_, by decide⟩
    simp [handle_speech_input, hc, say_fallback, deliveryPayloads, deliveryPayload]
  | true =>
    cases hu : req.recordingUrl with
    | none =>
      simpa [handle_speech_input, hc, hu] using hnormal "" 0
    | some u =>
      cases hf : o.fetch 0 with
      | httpError st =>
        refine ⟨httpFetchFallback, ?_, by decide⟩
        simp only [handle_speech_input, hc, if_true, hu, hf]
        exact gather_payloads httpFetchFallback
      | netError =>
        refine ⟨netFetchFallback, ?_, by decide⟩
        simp only [handle_speech_input, hc, if_true, hu, hf]
        exact gather_payloads netFetchFallback
      | otherError =>
        refine ⟨whisperFallback, ?_, by decide⟩
        simp only [handle_speech_input, hc, if_true, hu, hf]
        exact gather_payloads whisperFallback
      | success t =>
        simpa [handle_speech_input, hc, hu, hf] using hnormal (pyStrip t) 1

/-- Witness for the amended C4: a concrete turn with a non-empty reply
and failed synthesis emits exactly one non-empty payload. -/
theorem single_nonempty_payload_witness :
    gptReplyText (Oracles.mk (fun _ => FetchOutcome.netError)
      (GptOutcome.success "We are open from nine to five.") TtsOutcome.httpError
      "f.mp3" SmtpOutcome.ok).gpt ≠ "" ∧
    ∃ p, deliveryPayloads (handle_speech_input (Config.mk true true "http://host" true)
      (TurnRequest.mk (some "CA6") none none)
      (Oracles.mk (fun _ => FetchOutcome.netError)
        (GptOutcome.success "We are open from nine to five.") TtsOutcome.httpError
        "f.mp3" SmtpOutcome.ok)).twiml = [p] ∧ p ≠ "" :=
  ⟨by decide, single_nonempty_payload _ _ _ (by decide)⟩

/-- C5: on every turn that reaches synthesis, a primary synthesis failure
(HTTP error, network error, or zero-byte success body) leaves the pair
returned by text_to_elevenlabs_audio at (none, reply text) and the turn
delivers exactly one Say verb carrying the unchanged reply text. -/
theorem primary_synthesis_failure_text_fallback (cfg : Config) (req : TurnRequest)
    (o : Oracles) (hc : cfg.clientInitialized = true)
    (hn : reachesNormalPath req o = true)
    (hf : isPrimaryTtsFailure o.tts = true) :
    text_to_elevenlabs_audio cfg o.tts o.ttsFilename (gptReplyText o.gpt)
      = (none, gptReplyText o.gpt) ∧
    deliveryVerbs (handle_speech_input cfg req o).twiml
      = [Verb.say (gptReplyText o.gpt)] := by
  have h1 : text_to_elevenlabs_audio cfg o.tts o.ttsFilename (gptReplyText o.gpt)
      = (none, gptReplyText o.gpt) := by
    by_cases hk : cfg.elevenKeysPresent <;> cases ho : o.tts <;>
      simp [ho, isPrimaryTtsFailure] at hf ⊢ <;>
      simp [text_to_elevenlabs_audio, hk, hf]
  refine ⟨h1, ?_⟩
  obtain ⟨s, a, hh⟩ := handle_normal cfg req o hc hn
  rw [hh]
  exact normalPath_delivery_say cfg o s a (by rw [h1])

/-- Witness for C5: a network timeout at the synthesis provider on a
concrete turn yields a Say verb with the exact generated reply
(Scenario E). -/
theorem primary_synthesis_failure_text_fallback_witness :
    ((Config.mk true true "http://host" true).clientInitialized = true ∧
      reachesNormalPath (TurnRequest.mk (some "CA7") (some "http://rec") (some "4"))
        (Oracles.mk (fun _ => FetchOutcome.success " I want to book a skin check. ")
          (GptOutcome.success "What day suits you?") TtsOutcome.netError "f.mp3"
          SmtpOutcome.ok) = true ∧
      isPrimaryTtsFailure (Oracles.mk
        (fun _ => FetchOutcome.success " I want to book a skin check. ")
        (GptOutcome.success "What day suits you?") TtsOutcome.netError "f.mp3"
        SmtpOutcome.ok).tts = true) ∧
    (text_to_elevenlabs_audio (Config.mk true true "http://host" true)
        (Oracles.mk (fun _ => FetchOutcome.success " I want to book a skin check. ")
          (GptOutcome.success "What day suits you?") TtsOutcome.netError "f.mp3"
          SmtpOutcome.ok).tts
        (Oracles.mk (fun _ => FetchOutcome.success " I want to book a skin check. ")
          (GptOutcome.success "What day suits you?") TtsOutcome.netError "f.mp3"
          SmtpOutcome.ok).ttsFilename
        (gptReplyText (Oracles.mk
          (fun _ => FetchOutcome.success " I want to book a skin check. ")
          (GptOutcome.success "What day suits you?") TtsOutcome.netError "f.mp3"
          SmtpOutcome.ok).gpt)
      = (none, gptReplyText (Oracles.mk
          (fun _ => FetchOutcome.success " I want to book a skin check. ")
          (GptOutcome.success "What day suits you?") TtsOutcome.netError "f.mp3"
          SmtpOutcome.ok).gpt) ∧
    deliveryVerbs (handle_speech_input (Config.mk true true "http://host" true)
        (TurnRequest.mk (some "CA7") (some "http://rec") (some "4"))
        (Oracles.mk (fun _ => FetchOutcome.success " I want to book a skin check. ")
          (GptOutcome.success "What day suits you?") TtsOutcome.netError "f.mp3"
          SmtpOutcome.ok)).twiml
      = [Verb.say (gptReplyText (Oracles.mk
          (fun _ => FetchOutcome.success " I want to book a skin check. ")
          (GptOutcome.success "What day suits you?") TtsOutcome.netError "f.mp3"
          SmtpOutcome.ok).gpt)]) :=
  ⟨⟨by decide, by decide, by decide⟩,
    primary_synthesis_failure_text_fallback _ _ _ (by decide) (by decide) (by decide)⟩

/-- C6: when downloading the recording fails (HTTP error or network
error), the turn skips the GPT stage (no user message is built), speaks
the fixed fallback text of that failure class, appends a Record element,
and calls notify_error exactly once. -/
theorem fetch_failure_fallback_turn (cfg : Config) (req : TurnRequest) (o : Oracles)
    (u : String) (hc : cfg.clientInitialized = true)
    (hu : req.recordingUrl = some u)
    (hf : isDownloadFailure (o.fetch 0) = true) :
    (handle_speech_input cfg req o).gptUserContent = none ∧
    (handle_speech_input cfg req o).deliveredText = fetchFallbackText (o.fetch 0) ∧
    Verb.record ∈ (handle_speech_input cfg req o).twiml ∧
    (handle_speech_input cfg req o).notifications = [notify_error cfg o.smtp] := by
  cases hfo : o.fetch 0 with
  | httpError st =>
    refine ⟨?_, ?_, ?_, ?_⟩ <;>
      simp only [handle_speech_input, hc, if_true, hu, hfo, fetchFallbackText]
    exact gather_record_mem httpFetchFallback (by decide)
  | netError =>
    refine ⟨?_, ?_, ?_, ?_⟩ <;>
      simp only [handle_speech_input, hc, if_true, hu, hfo, fetchFallbackText]
    exact gather_record_mem netFetchFallback (by decide)
  | otherError => simp [isDownloadFailure, hfo] at hf
  | success t => simp [isDownloadFailure, hfo] at hf

/-- Witness for C6: a concrete turn whose recording download fails with
HTTP 404 speaks the fixed retrieval fallback, keeps recording, and
notifies exactly once (Scenario C with the code policy of one attempt). -/
theorem fetch_failure_fallback_turn_witness :
    ((Config.mk true true "http://host" true).clientInitialized = true ∧
      (TurnRequest.mk (some "CA8") (some "http://rec") (some "2")).recordingUrl
        = some "http://rec" ∧
      isDownloadFailure ((Oracles.mk (fun _ => FetchOutcome.httpError 404)
        GptOutcome.failure TtsOutcome.otherError "f.mp3" SmtpOutcome.ok).fetch 0)
        = true) ∧
    ((handle_speech_input (Config.mk true true "http://host" true)
        (TurnRequest.mk (some "CA8") (some "http://rec") (some "2"))
        (Oracles.mk (fun _ => FetchOutcome.httpError 404) GptOutcome.failure
          TtsOutcome.otherError "f.mp3" SmtpOutcome.ok)).gptUserContent = none ∧
      (handle_speech_input (Config.mk true true "http://host" true)
        (TurnRequest.mk (some "CA8") (some "http://rec") (some "2"))
        (Oracles.mk (fun _ => FetchOutcome.httpError 404) GptOutcome.failure
          TtsOutcome.otherError "f.mp3" SmtpOutcome.ok)).deliveredText
        = fetchFallbackText ((Oracles.mk (fun _ => FetchOutcome.httpError 404)
            GptOutcome.failure TtsOutcome.otherError "f.mp3" SmtpOutcome.ok).fetch 0) ∧
      Verb.record ∈ (handle_speech_input (Config.mk true true "http://host" true)
        (TurnRequest.mk (some "CA8") (some "http://rec") (some "2"))
        (Oracles.mk (fun _ => FetchOutcome.httpError 404) GptOutcome.failure
          TtsOutcome.otherError "f.mp3" SmtpOutcome.ok)).twiml ∧
      (handle_speech_input (Config.mk true true "http://host" true)
        (TurnRequest.mk (some "CA8") (some "http://rec") (some "2"))
        (Oracles.mk (fun _ => FetchOutcome.httpError 404) GptOutcome.failure
          TtsOutcome.otherError "f.mp3" SmtpOutcome.ok)).notifications
        = [notify_error (Config.mk true true "http://host" true) SmtpOutcome.ok]) :=
  ⟨⟨by decide, by decide, by decide⟩,
    fetch_failure_fallback_turn _ _ _ "http://rec" (by decide) (by decide) (by decide)⟩

/-- C7 counterexample: with no recording reference and duration zero the
sentinel is passed to the generator, but when the generated reply
matches the emergency pattern the instruction terminates instead of
recording the next turn, refuting the unconditional record-next-turn. -/
theorem no_input_turn_counterexample :
    (handle_speech_input (Config.mk true true "http://host" true)
      (TurnRequest.mk (some "CA9") none (some "0"))
      (Oracles.mk (fun _ => FetchOutcome.netError)
        (GptOutcome.success "Please hang up and call 000 now.")
        (TtsOutcome.ok 512) "f.mp3" SmtpOutcome.ok)).gptUserContent
      = some noInputSentinel ∧
    Verb.record ∉ (handle_speech_input (Config.mk true true "http://host" true)
      (TurnRequest.mk (some "CA9") none (some "0"))
      (Oracles.mk (fun _ => FetchOutcome.netError)
        (GptOutcome.success "Please hang up and call 000 now.")
        (TtsOutcome.ok 512) "f.mp3" SmtpOutcome.ok)).twiml := by
  decide

/-- C7 amended: with the client initialized, no recording reference, and
duration parsing to zero, the turn makes no download attempt, passes the
fixed no-input sentinel to the generator, and appends a Record element
unless the generated reply matches the emergency pattern. -/
theorem no_input_turn_sentinel (cfg : Config) (req : TurnRequest) (o : Oracles)
    (hc : cfg.clientInitialized = true) (hurl : req.recordingUrl = none)
    (_hdur : recordingDurationOf req = 0) :
    (handle_speech_input cfg req o).gptUserContent = some noInputSentinel ∧
    (handle_speech_input cfg req o).fetchAttempts = 0 ∧
    (isEmergencyText (gptReplyText o.gpt) = false →
      Verb.record ∈ (handle_speech_input cfg req o).twiml) := by
  simp only [handle_speech_input, hc, if_true, hurl]
  refine ⟨?_, normalPath_fetchAttempts cfg o "" 0, ?_⟩
  · rw [normalPath_gptUserContent]
    simp
  · intro he
    exact normalPath_record_mem cfg o "" 0 he

/-- Witness for the amended C7: a concrete silent turn passes the
sentinel and keeps recording. -/
theorem no_input_turn_sentinel_witness :
    ((Config.mk true true "http://host" true).clientInitialized = true ∧
      (TurnRequest.mk (some "CB1") none (some "0")).recordingUrl = none ∧
      recordingDurationOf (TurnRequest.mk (some "CB1") none (some "0")) = 0) ∧
    ((handle_speech_input (Config.mk true true "http://host" true)
        (TurnRequest.mk (some "CB1") none (some "0"))
        (Oracles.mk (fun _ => FetchOutcome.netError)
          (GptOutcome.success "Hello, is anyone there? How can I help you today?")
          TtsOutcome.httpError "f.mp3" SmtpOutcome.ok)).gptUserContent
        = some noInputSentinel ∧
      (handle_speech_input (Config.mk true true "http://host" true)
        (TurnRequest.mk (some "CB1") none (some "0"))
        (Oracles.mk (fun _ => FetchOutcome.netError)
          (GptOutcome.success "Hello, is anyone there? How can I help you today?")
          TtsOutcome.httpError "f.mp3" SmtpOutcome.ok)).fetchAttempts = 0 ∧
      (isEmergencyText (gptReplyText (Oracles.mk (fun _ => FetchOutcome.netError)
          (GptOutcome.success "Hello, is anyone there? How can I help you today?")
          TtsOutcome.httpError "f.mp3" SmtpOutcome.ok).gpt) = false →
        Verb.record ∈ (handle_speech_input (Config.mk true true "http://host" true)
          (TurnRequest.mk (some "CB1") none (some "0"))
          (Oracles.mk (fun _ => FetchOutcome.netError)
            (GptOutcome.success "Hello, is anyone there? How can I help you today?")
            TtsOutcome.httpError "f.mp3" SmtpOutcome.ok)).twiml)) :=
  ⟨⟨by decide, by decide, by decide⟩,
    no_input_turn_sentinel _ _ _ (by decide) (by decide) (by decide)⟩

/-- C8: operator notification is best effort: notify_error always
returns a result (missing configuration and transport failures are
absorbed), and the caller-facing parts of the turn are identical
whichever SMTP outcome occurs. -/
theorem notifier_best_effort (cfg : Config) (req : TurnRequest) (o : Oracles)
    (s1 s2 : SmtpOutcome) :
    (handle_speech_input cfg req (Oracles.mk o.fetch o.gpt o.tts o.ttsFilename s1)).twiml
      = (handle_speech_input cfg req (Oracles.mk o.fetch o.gpt o.tts o.ttsFilename s2)).twiml ∧
    (handle_speech_input cfg req (Oracles.mk o.fetch o.gpt o.tts o.ttsFilename s1)).deliveredText
      = (handle_speech_input cfg req (Oracles.mk o.fetch o.gpt o.tts o.ttsFilename s2)).deliveredText ∧
    (handle_speech_input cfg req (Oracles.mk o.fetch o.gpt o.tts o.ttsFilename s1)).gptUserContent
      = (handle_speech_input cfg req (Oracles.mk o.fetch o.gpt o.tts o.ttsFilename s2)).gptUserContent ∧
    (handle_speech_input cfg req (Oracles.mk o.fetch o.gpt o.tts o.ttsFilename s1)).fetchAttempts
      = (handle_speech_input cfg req (Oracles.mk o.fetch o.gpt o.tts o.ttsFilename s2)).fetchAttempts := by
  cases hc : cfg.clientInitialized with
  | false => exact ⟨by simp [handle_speech_input, hc], by simp [handle_speech_input, hc],
      by simp [handle_speech_input, hc], by simp [handle_speech_input, hc]⟩
  | true =>
    cases hu : req.recordingUrl with
    | none =>
      simp only [handle_speech_input, hc, if_true, hu]
      exact ⟨rfl, rfl, rfl, rfl⟩
    | some u =>
      cases hf : o.fetch 0 <;>
        simp [handle_speech_input, normalPath, hc, hu, hf]

/-- C9 counterexample: when the OpenAI client is not initialized the
turn responds through say_fallback with a non-emergency sentence and no
Record element, so the call is dropped without an emergency, refuting
the claim over all response paths. -/
theorem no_client_drop_counterexample :
    isEmergencyText (handle_speech_input (Config.mk false true "http://host" true)
      (TurnRequest.mk (some "CB2") none none)
      (Oracles.mk (fun _ => FetchOutcome.netError) GptOutcome.failure
        TtsOutcome.otherError "f.mp3" SmtpOutcome.ok)).deliveredText = false ∧
    Verb.record ∉ (handle_speech_input (Config.mk false true "http://host" true)
      (TurnRequest.mk (some "CB2") none none)
      (Oracles.mk (fun _ => FetchOutcome.netError) GptOutcome.failure
        TtsOutcome.otherError "f.mp3" SmtpOutcome.ok)).twiml := by
  decide

/-- C9 amended: when the OpenAI client is initialized, every response
path whose reply text does not match the emergency pattern appends a
Record element, and the initial voice handler always appends one. -/
theorem client_ok_records_next_turn (cfg : Config) (req : TurnRequest) (o : Oracles)
    (hc : cfg.clientInitialized = true)
    (hne : isEmergencyText (handle_speech_input cfg req o).deliveredText = false) :
    Verb.record ∈ (handle_speech_input cfg req o).twiml ∧
    Verb.record ∈ (initial_voice_handler cfg o).twiml := by
  constructor
  · cases hu : req.recordingUrl with
    | none =>
      simp only [handle_speech_input, hc, if_true, hu] at hne ⊢
      exact normalPath_record_mem cfg o "" 0
        (normalPath_deliveredText cfg o "" 0 ▸ hne)
    | some u =>
      cases hf : o.fetch 0 with
      | httpError st =>
        simp only [handle_speech_input, hc, if_true, hu, hf] at hne ⊢
        exact gather_record_mem httpFetchFallback hne
      | netError =>
        simp only [handle_speech_input, hc, if_true, hu, hf] at hne ⊢
        exact gather_record_mem netFetchFallback hne
      | otherError =>
        simp only [handle_speech_input, hc, if_true, hu, hf] at hne ⊢
        exact gather_record_mem whisperFallback hne
      | success t =>
        simp only [handle_speech_input, hc, if_true, hu, hf] at hne ⊢
        exact normalPath_record_mem cfg o (pyStrip t) 1
          (normalPath_deliveredText cfg o (pyStrip t) 1 ▸ hne)
  · cases hm : (text_to_elevenlabs_audio cfg o.tts o.ttsFilename greetingText).1 <;>
      simp [initial_voice_handler, hc, hm]

/-- Witness for the amended C9: a concrete non-emergency turn appends a
Record element on both handlers. -/
theorem client_ok_records_next_turn_witness :
    ((Config.mk true false "http://host" false).clientInitialized = true ∧
      isEmergencyText (handle_speech_input (Config.mk true false "http://host" false)
        (TurnRequest.mk (some "CB3") (some "http://rec") (some "5"))
        (Oracles.mk (fun _ => FetchOutcome.success "What time do you open?")
          (GptOutcome.success "We open at nine.") (TtsOutcome.ok 64) "f.mp3"
          SmtpOutcome.transportError)).deliveredText = false) ∧
    (Verb.record ∈ (handle_speech_input (Config.mk true false "http://host" false)
        (TurnRequest.mk (some "CB3") (some "http://rec") (some "5"))
        (Oracles.mk (fun _ => FetchOutcome.success "What time do you open?")
          (GptOutcome.success "We open at nine.") (TtsOutcome.ok 64) "f.mp3"
          SmtpOutcome.transportError)).twiml ∧
      Verb.record ∈ (initial_voice_handler (Config.mk true false "http://host" false)
        (Oracles.mk (fun _ => FetchOutcome.success "What time do you open?")
          (GptOutcome.success "We open at nine.") (TtsOutcome.ok 64) "f.mp3"
          SmtpOutcome.transportError)).twiml) :=
  ⟨⟨by decide, by decide⟩,
    client_ok_records_next_turn _ _ _ (by decide) (by decide)⟩

/-- C10: a missing or unparseable RecordingDuration field is treated as
duration 0, and the turn proceeds exactly as if the field had been
"0". -/
theorem malformed_duration_defaults_zero (cfg : Config) (req : TurnRequest) (o : Oracles)
    (h : req.recordingDuration = none ∨
      pyInt? (req.recordingDuration.getD "0") = none) :
    recordingDurationOf req = 0 ∧
    handle_speech_input cfg req o
      = handle_speech_input cfg
          (TurnRequest.mk req.callSid req.recordingUrl (some "0")) o := by
  refine ⟨?_, rfl⟩
  rcases h with h | h
  · simp only [recordingDurationOf, h]
    decide
  · simp only [recordingDurationOf, h]

/-- Witness for C10: the unparseable duration value "abc" yields
duration 0 and an unchanged turn. -/
theorem malformed_duration_defaults_zero_witness :
    (pyInt? ((TurnRequest.mk (some "CB4") none (some "abc")).recordingDuration.getD "0")
      = none) ∧
    (recordingDurationOf (TurnRequest.mk (some "CB4") none (some "abc")) = 0 ∧
      handle_speech_input (Config.mk true true "http://host" true)
        (TurnRequest.mk (some "CB4") none (some "abc"))
        (Oracles.mk (fun _ => FetchOutcome.netError)
          (GptOutcome.success "Sure, I can help with that.") (TtsOutcome.ok 64)
          "f.mp3" SmtpOutcome.ok)
      = handle_speech_input (Config.mk true true "http://host" true)
        (TurnRequest.mk (TurnRequest.mk (some "CB4") none (some "abc")).callSid
          (TurnRequest.mk (some "CB4") none (some "abc")).recordingUrl (some "0"))
        (Oracles.mk (fun _ => FetchOutcome.netError)
          (GptOutcome.success "Sure, I can help with that.") (TtsOutcome.ok 64)
          "f.mp3" SmtpOutcome.ok)) :=
  ⟨by decide,
    malformed_duration_defaults_zero _ _ _ (Or.inr (by decide))⟩

end SolVoice
